import Mathlib

/-!
# Verification of the RNA inspector configuration loader

Shallow embedding of `src/network_inspectors/rna/rna_inspector.cc`:
the configuration-file parser `RnaInspector::load_rna_conf`, the
constructor `RnaInspector::RnaInspector`, and the per-packet hook
`RnaInspector::eval`.  File I/O is modelled by passing the lines of the file
(or `none` when the file cannot be opened); the C++ `std::stoi` call,
which throws on failure, is modelled by `Option`: a `none` result of the
loader means the load aborted with an uncaught exception.
-/

namespace Rna

/-- Whitespace characters skipped by `istringstream` token extraction
(default C locale: space, tab, newline, vertical tab, form feed,
carriage return). -/
def isSpace (c : Char) : Bool :=
  c = ' ' || c = '\t' || c = '\n' || c = '\x0b' || c = '\x0c' || c = '\r'

/-- One `line_stream >> token` extraction: skip leading whitespace, then
take the maximal run of non-whitespace characters.  Returns the token and
the remaining characters.  An exhausted stream yields the empty string,
matching a C++ extraction that fails and leaves the target string empty. -/
def extractToken (cs : List Char) : String × List Char :=
  let rest := cs.dropWhile isSpace
  (String.mk (rest.takeWhile fun c => !isSpace c),
   rest.dropWhile fun c => !isSpace c)

/-- `line_stream >> config_type >> config_key >> config_value`
(rna_inspector.cc line 142): the first three whitespace-separated tokens
of the line; any characters after the third token are left unread. -/
def tokenize3 (line : String) : String × String × String :=
  let p1 := extractToken line.data
  let p2 := extractToken p1.2
  let p3 := extractToken p2.2
  (p1.1, p2.1, p3.1)

/-- Value of a run of decimal digits. -/
def digitsToNat (ds : List Char) : Nat :=
  ds.foldl (fun a c => a * 10 + (c.toNat - 48)) 0

/-- Digit phase of `std::stoi`: take the maximal run of decimal digits; no
digit at all is `invalid_argument`, and a value outside the `int` range
is `out_of_range`; both exceptions are modelled as `none`. -/
def stoiDigits (cs : List Char) (neg : Bool) : Option Int :=
  let ds := cs.takeWhile Char.isDigit
  if ds.isEmpty then none
  else
    let n : Int := Int.ofNat (digitsToNat ds)
    let v : Int := if neg then -n else n
    if v < -(2 ^ 31) ∨ 2 ^ 31 - 1 < v then none else some v

/-- `std::stoi` (base 10): skip leading whitespace, optional sign, then
decimal digits; further characters are ignored.  `none` models a thrown
`std::invalid_argument` or `std::out_of_range`. -/
def stoi (s : String) : Option Int :=
  let cs := s.data.dropWhile isSpace
  match cs with
  | '-' :: r => stoiDigits r true
  | '+' :: r => stoiDigits r false
  | _ => stoiDigits cs false

/-- C++ conversion of an `int` to the `uint32_t` fields of `RnaConfig`:
the value reduced modulo 2^32. -/
def toU32 (i : Int) : Nat := (i % (2 ^ 32 : Int)).toNat

/-- The validated-parameter bag `RnaConfig`.  The five numeric fields are
`uint32_t` in the source, modelled as `Nat` values below 2^32 produced by
`toU32`; `enable_banner_grab` is `bool`. -/
structure RnaConfig where
  update_timeout : Nat
  max_host_client_apps : Nat
  max_payloads : Nat
  max_host_services : Nat
  max_host_service_info : Nat
  enable_banner_grab : Bool
  deriving Repr, DecidableEq

/-- Modelled from the spec: the header declaring `RnaConfig` (with its
default member initializers) is not under `src/`; the spec says each
numeric field "defaults to a fixed constant" without giving the values,
and that `enable_banner_grab` "defaults to disabled".  The default record
is therefore parameterized by the five numeric constants, with the
boolean default fixed to `false`. -/
def RnaConfig.mkDefault (ut ca pl sv si : Nat) : RnaConfig :=
  ⟨ut, ca, pl, sv, si, false⟩

/-- Modelled from the spec: `RnaModuleConfig` (declared in the RNA module
header, not under `src/`) carries the four optional path strings of §3,
empty meaning "unset". -/
structure RnaModuleConfig where
  rna_conf_path : String
  rna_util_lib_path : String
  fingerprint_dir : String
  custom_fingerprint_dir : String
  deriving Repr, DecidableEq

/-- The warnings the loader can emit: `emptyItems line path` is the
"RNA: Empty configuration items at line %u from %s" message
(rna_inspector.cc line 145), `loadFailed` is the constructor
"RNA: Failed to load configurations from file! Using defaults." message
(line 55). -/
inductive Warning where
  | emptyItems (line : Nat) (path : String)
  | loadFailed
  deriving Repr, DecidableEq

/-- The directive dispatch of rna_inspector.cc lines 150-161: the five
recognized integer directives assign `stoi(config_value)` (converted to
`uint32_t`) to their field; a `("protoid", "BannerGrab")` directive with
value other than `"0"` sets `enable_banner_grab` to `true`; every other
triple falls through with no effect.  `none` models the `std::stoi`
exception aborting the load. -/
def applyDirective (conf : RnaConfig) (t k v : String) : Option RnaConfig :=
  if t = "pnd" ∧ k = "UpdateTimeout" then
    (stoi v).map fun i => { conf with update_timeout := toU32 i }
  else if t = "config" ∧ k = "MaxHostClientApps" then
    (stoi v).map fun i => { conf with max_host_client_apps := toU32 i }
  else if t = "config" ∧ k = "MaxPayloads" then
    (stoi v).map fun i => { conf with max_payloads := toU32 i }
  else if t = "config" ∧ k = "MaxHostServices" then
    (stoi v).map fun i => { conf with max_host_services := toU32 i }
  else if t = "config" ∧ k = "MaxHostServiceInfo" then
    (stoi v).map fun i => { conf with max_host_service_info := toU32 i }
  else if t = "protoid" ∧ k = "BannerGrab" ∧ v ≠ "0" then
    some { conf with enable_banner_grab := true }
  else
    some conf

/-- One iteration of the read loop (rna_inspector.cc lines 129-162) on an
already-read line: skip the line when it is empty or starts with `#`;
extract three tokens; if any token is empty, warn with the 1-based line
number and the path and continue; otherwise dispatch the directive. -/
def processLine (path : String) (ln : Nat) (conf : RnaConfig) (line : String) :
    Option (RnaConfig × List Warning) :=
  if line = "" ∨ line.data.head? = some '#' then
    some (conf, [])
  else if (tokenize3 line).1 = "" ∨ (tokenize3 line).2.1 = "" ∨
      (tokenize3 line).2.2 = "" then
    some (conf, [Warning.emptyItems ln path])
  else
    (applyDirective conf (tokenize3 line).1 (tokenize3 line).2.1
      (tokenize3 line).2.2).map fun c => (c, [])

/-- The read loop over the lines of the file, starting at line number `ln`
(the source starts at 1), threading the record and accumulating
warnings; a `none` from `processLine` (thrown `std::stoi` exception)
aborts the whole load. -/
def processLines (path : String) : Nat → RnaConfig → List String →
    Option (RnaConfig × List Warning)
  | _, conf, [] => some (conf, [])
  | ln, conf, l :: ls =>
    match processLine path ln conf l with
    | none => none
    | some (c, ws) =>
      match processLines path (ln + 1) c ls with
      | none => none
      | some (c2, ws2) => some (c2, ws ++ ws2)

/-- Result of `RnaInspector::load_rna_conf`: the returned `bool`, the
record the member pointer was left holding, and the warnings emitted
during the load. -/
structure LoadResult where
  ok : Bool
  rna_conf : RnaConfig
  warnings : List Warning
  deriving Repr, DecidableEq

/-- `RnaInspector::load_rna_conf` (rna_inspector.cc lines 114-166).
`dflt` is the freshly default-initialized `new RnaConfig`; `fs` models
`ifstream` opening: `fs p = none` means the file at `p` cannot be opened
(the source check `if (!in_stream) return false`), `some lines` gives the
lines of the file as read by `getline`.  The outer `none` models the load
aborting on an uncaught `std::stoi` exception. -/
def load_rna_conf (dflt : RnaConfig) (mc : Option RnaModuleConfig)
    (fs : String → Option (List String)) : Option LoadResult :=
  match mc with
  | none => some ⟨false, dflt, []⟩
  | some m =>
    match fs m.rna_conf_path with
    | none => some ⟨false, dflt, []⟩
    | some lines =>
      match processLines m.rna_conf_path 1 dflt lines with
      | none => none
      | some (c, ws) => some ⟨true, c, ws⟩

/-- The configuration state of the inspector: the module configuration pointer
and the `RnaConfig*` member (`none` models a null pointer). -/
structure RnaInspector where
  mod_conf : Option RnaModuleConfig
  rna_conf : Option RnaConfig
  deriving Repr, DecidableEq

/-- `RnaInspector::RnaInspector` (rna_inspector.cc lines 51-56): store
the module configuration, run `load_rna_conf`, and emit one extra
warning when it returns `false`.  Returns the constructed inspector and
all warnings emitted during construction; `none` models construction
aborting on the `std::stoi` exception. -/
def constructInspector (dflt : RnaConfig) (mc : Option RnaModuleConfig)
    (fs : String → Option (List String)) :
    Option (RnaInspector × List Warning) :=
  match load_rna_conf dflt mc fs with
  | none => none
  | some r =>
    some (⟨mc, some r.rna_conf⟩,
      r.warnings ++ if r.ok then [] else [Warning.loadFailed])

/-- Modelled from the spec: the flag bit marking rebuilt-stream packets
(`PKT_REBUILT_STREAM`, declared in `protocols/packet.h`, not under
`src/`).  Its concrete value is irrelevant here: the claims depend only
on whether the bit is set in the flags of a packet. -/
def PKT_REBUILT_STREAM : Nat := 2

/-- Modelled from the spec: the read-only packet descriptor, reduced to
the `packet_flags` word consulted by `RnaInspector::eval`. -/
structure Packet where
  packet_flags : Nat
  deriving Repr, DecidableEq

/-- Modelled from the spec: the per-thread statistics record holding the
total-packet counter (`SimpleStats rna_stats`). -/
structure SimpleStats where
  total_packets : Nat
  deriving Repr, DecidableEq

/-- `RnaInspector::eval` (rna_inspector.cc lines 64-72), with the
thread-local counter state passed explicitly: a packet whose flags have
the `PKT_REBUILT_STREAM` bit set is ignored; otherwise the total-packet
counter is incremented. -/
def eval (p : Packet) (s : SimpleStats) : SimpleStats :=
  if p.packet_flags &&& PKT_REBUILT_STREAM ≠ 0 then s
  else { s with total_packets := s.total_packets + 1 }

/-- The five recognized integer-valued (type, key) pairs of the dispatch
table. -/
def intKey (t k : String) : Prop :=
  (t = "pnd" ∧ k = "UpdateTimeout") ∨
  (t = "config" ∧ (k = "MaxHostClientApps" ∨ k = "MaxPayloads" ∨
    k = "MaxHostServices" ∨ k = "MaxHostServiceInfo"))

instance (t k : String) : Decidable (intKey t k) := by
  unfold intKey; infer_instance

/-- A line that triggers the "Empty configuration items" warning: not
skipped as blank or comment, and one of its three extracted tokens is
empty. -/
def lineWarns (line : String) : Prop :=
  ¬ (line = "" ∨ line.data.head? = some '#') ∧
    ((tokenize3 line).1 = "" ∨ (tokenize3 line).2.1 = "" ∨
      (tokenize3 line).2.2 = "")

instance : DecidablePred lineWarns := fun l => by
  unfold lineWarns; infer_instance

/-- A line that cannot abort the load: whenever it is processed as a
recognized integer directive, its value converts. -/
def lineOk (line : String) : Prop :=
  (¬ (line = "" ∨ line.data.head? = some '#') ∧
   ¬ ((tokenize3 line).1 = "" ∨ (tokenize3 line).2.1 = "" ∨
      (tokenize3 line).2.2 = "") ∧
   intKey (tokenize3 line).1 (tokenize3 line).2.1) →
    (stoi (tokenize3 line).2.2).isSome

instance : DecidablePred lineOk := fun l => by
  unfold lineOk; infer_instance

/-- The warning list the loader is expected to produce on the lines of a
file, numbering from `ln`: one `emptyItems` warning per line satisfying
`lineWarns`, carrying the number of that line and the path. -/
def expectedWarnings (path : String) : Nat → List String → List Warning
  | _, [] => []
  | ln, l :: ls =>
    (if lineWarns l then [Warning.emptyItems ln path] else []) ++
      expectedWarnings path (ln + 1) ls

/-- The concrete directive file of spec §8. -/
def sampleFile : List String :=
  ["# sample", "pnd UpdateTimeout 120", "config MaxPayloads 50",
   "protoid BannerGrab 1", "garbage line here extra"]

/-! ## Helper lemmas -/

/-- The warning part of a successful `processLine` is determined by
`lineWarns`, with the current line number and path. -/
lemma processLine_snd {path : String} {ln : Nat} {conf : RnaConfig}
    {l : String} {c1 : RnaConfig} {ws1 : List Warning}
    (h : processLine path ln conf l = some (c1, ws1)) :
    ws1 = if lineWarns l then [Warning.emptyItems ln path] else [] := by
  by_cases hskip : l = "" ∨ l.data.head? = some '#'
  · rw [processLine, if_pos hskip] at h
    injection h with h
    injection h with hc hw
    rw [← hw, if_neg fun hw => hw.1 hskip]
  · by_cases hempty : (tokenize3 l).1 = "" ∨ (tokenize3 l).2.1 = "" ∨
        (tokenize3 l).2.2 = ""
    · rw [processLine, if_neg hskip, if_pos hempty] at h
      injection h with h
      injection h with hc hw
      rw [← hw, if_pos ⟨hskip, hempty⟩]
    · rw [processLine, if_neg hskip, if_neg hempty] at h
      rcases Option.map_eq_some'.mp h with ⟨c, _, hc⟩
      injection hc with hc hw
      rw [← hw, if_neg fun hw => hempty hw.2]

/-- A successful `applyDirective` never resets `enable_banner_grab`. -/
lemma applyDirective_bg_mono {conf c : RnaConfig} {t k v : String}
    (h : applyDirective conf t k v = some c)
    (hbg : conf.enable_banner_grab = true) : c.enable_banner_grab = true := by
  unfold applyDirective at h
  split_ifs at h <;>
    first
      | (rcases Option.map_eq_some'.mp h with ⟨i, _, hc⟩; subst hc; exact hbg)
      | (injection h with h; subst h; first | rfl | exact hbg)

/-- A successful `processLine` never resets `enable_banner_grab`. -/
lemma processLine_bg_mono {path : String} {ln : Nat} {conf : RnaConfig}
    {l : String} {c1 : RnaConfig} {ws1 : List Warning}
    (h : processLine path ln conf l = some (c1, ws1))
    (hbg : conf.enable_banner_grab = true) : c1.enable_banner_grab = true := by
  by_cases hskip : l = "" ∨ l.data.head? = some '#'
  · rw [processLine, if_pos hskip] at h
    injection h with h
    injection h with hc hw
    rw [← hc]; exact hbg
  · by_cases hempty : (tokenize3 l).1 = "" ∨ (tokenize3 l).2.1 = "" ∨
        (tokenize3 l).2.2 = ""
    · rw [processLine, if_neg hskip, if_pos hempty] at h
      injection h with h
      injection h with hc hw
      rw [← hc]; exact hbg
    · rw [processLine, if_neg hskip, if_neg hempty] at h
      rcases Option.map_eq_some'.mp h with ⟨c, hc, hp⟩
      injection hp with hp1 hp2
      rw [← hp1]
      exact applyDirective_bg_mono hc hbg

/-- When an integer directive has a convertible value whenever it is
recognized, the dispatch cannot abort. -/
lemma applyDirective_isSome (conf : RnaConfig) (t k v : String)
    (h : intKey t k → (stoi v).isSome) : (applyDirective conf t k v).isSome := by
  unfold applyDirective
  split_ifs with h1 h2 h3 h4 h5 h6
  · rcases Option.isSome_iff_exists.mp (h (Or.inl h1)) with ⟨i, hi⟩
    rw [hi]; rfl
  · rcases Option.isSome_iff_exists.mp (h (Or.inr ⟨h2.1, Or.inl h2.2⟩)) with ⟨i, hi⟩
    rw [hi]; rfl
  · rcases Option.isSome_iff_exists.mp
        (h (Or.inr ⟨h3.1, Or.inr (Or.inl h3.2)⟩)) with ⟨i, hi⟩
    rw [hi]; rfl
  · rcases Option.isSome_iff_exists.mp
        (h (Or.inr ⟨h4.1, Or.inr (Or.inr (Or.inl h4.2))⟩)) with ⟨i, hi⟩
    rw [hi]; rfl
  · rcases Option.isSome_iff_exists.mp
        (h (Or.inr ⟨h5.1, Or.inr (Or.inr (Or.inr h5.2))⟩)) with ⟨i, hi⟩
    rw [hi]; rfl
  · rfl
  · rfl

/-- A line satisfying `lineOk` cannot abort its processing step. -/
lemma processLine_isSome (path : String) (ln : Nat) (conf : RnaConfig)
    (l : String) (h : lineOk l) : (processLine path ln conf l).isSome := by
  unfold processLine
  split_ifs with h1 h2
  · rfl
  · rfl
  · have hs := applyDirective_isSome conf (tokenize3 l).1 (tokenize3 l).2.1
      (tokenize3 l).2.2 (fun ik => h ⟨h1, h2, ik⟩)
    rcases Option.isSome_iff_exists.mp hs with ⟨c, hc⟩
    rw [hc]; rfl

/-- On success, the warning list of the scan is exactly the
`expectedWarnings` enumeration. -/
lemma processLines_warnings {path : String} {lines : List String} :
    ∀ {ln : Nat} {conf c : RnaConfig} {ws : List Warning},
    processLines path ln conf lines = some (c, ws) →
    ws = expectedWarnings path ln lines := by
  induction lines with
  | nil =>
    intro ln conf c ws h
    simp only [processLines, Option.some.injEq, Prod.mk.injEq] at h
    obtain ⟨rfl, rfl⟩ := h
    rfl
  | cons l ls ih =>
    intro ln conf c ws h
    cases h1 : processLine path ln conf l with
    | none => simp [processLines, h1] at h
    | some p =>
      obtain ⟨c1, ws1⟩ := p
      cases h2 : processLines path (ln + 1) c1 ls with
      | none => simp [processLines, h1, h2] at h
      | some q =>
        obtain ⟨c2, ws2⟩ := q
        simp only [processLines, h1, h2, Option.some.injEq, Prod.mk.injEq] at h
        obtain ⟨rfl, rfl⟩ := h
        rw [processLine_snd h1, ih h2, expectedWarnings]

/-- A scan over lines that all satisfy `lineOk` succeeds. -/
lemma processLines_isSome {path : String} {lines : List String} :
    ∀ {ln : Nat} {conf : RnaConfig}, (∀ l ∈ lines, lineOk l) →
    (processLines path ln conf lines).isSome := by
  induction lines with
  | nil => intro ln conf _; rfl
  | cons l ls ih =>
    intro ln conf h
    rcases Option.isSome_iff_exists.mp
        (processLine_isSome path ln conf l (h l (List.mem_cons_self l ls))) with ⟨p, hp⟩
    obtain ⟨c1, ws1⟩ := p
    rcases Option.isSome_iff_exists.mp
        (@ih (ln + 1) c1 fun x hx => h x (List.mem_cons_of_mem l hx)) with
      ⟨q, hq⟩
    obtain ⟨c2, ws2⟩ := q
    simp [processLines, hp, hq]

/-- `enable_banner_grab` is monotone along a successful scan. -/
lemma processLines_bg_mono {path : String} {lines : List String} :
    ∀ {ln : Nat} {conf c : RnaConfig} {ws : List Warning},
    processLines path ln conf lines = some (c, ws) →
    conf.enable_banner_grab = true → c.enable_banner_grab = true := by
  induction lines with
  | nil =>
    intro ln conf c ws h hbg
    simp only [processLines, Option.some.injEq, Prod.mk.injEq] at h
    obtain ⟨rfl, rfl⟩ := h
    exact hbg
  | cons l ls ih =>
    intro ln conf c ws h hbg
    cases h1 : processLine path ln conf l with
    | none => simp [processLines, h1] at h
    | some p =>
      obtain ⟨c1, ws1⟩ := p
      cases h2 : processLines path (ln + 1) c1 ls with
      | none => simp [processLines, h1, h2] at h
      | some q =>
        obtain ⟨c2, ws2⟩ := q
        simp only [processLines, h1, h2, Option.some.injEq, Prod.mk.injEq] at h
        obtain ⟨rfl, rfl⟩ := h
        exact ih h2 (processLine_bg_mono h1 hbg)

/-! ## Claim theorems -/

/-- C1 (counterexample): on the concrete file of spec §8, the load
succeeds with update_timeout = 120, max_payloads = 50 and
enable_banner_grab = true, but emits NO warning: the 4-token line
"garbage line here extra" extracts the three non-empty tokens
"garbage", "line", "here", so the empty-token check does not fire and
the line is silently ignored as an unrecognized directive. -/
theorem claim1_counterexample :
    processLines "rna.conf" 1 (RnaConfig.mkDefault 100 200 300 400 500)
        sampleFile = some (⟨120, 200, 50, 400, 500, true⟩, []) ∧
    (processLines "rna.conf" 1 (RnaConfig.mkDefault 100 200 300 400 500)
        sampleFile).map (fun r => r.2.length) ≠ some 1 := by
  exact ⟨rfl, by decide⟩

/-- C1 (amended): parsing the concrete file of spec §8 yields
update_timeout = 120, max_payloads = 50, enable_banner_grab = true and
every other field at its default, and emits no warning at all: the
4-token line is not flagged, because only its first three tokens are
extracted and all three are non-empty. -/
theorem claim1_sample_parse (ut ca pl sv si : Nat) (path : String) :
    processLines path 1 (RnaConfig.mkDefault ut ca pl sv si) sampleFile =
      some (⟨120, ca, 50, sv, si, true⟩, []) := rfl

/-- C2 (counterexample): a one-line file consisting of a comment line has
N = 1 lines of which M = 1 is malformed in the sense of the claim
(comment), yet the parser emits 0 warnings, not M = 1; and a file whose
single line has exactly three tokens but a non-numeric value for a
recognized integer directive makes the whole scan abort, so the parser
does not "never abort". -/
theorem claim2_counterexample :
    processLines "rna.conf" 1 (RnaConfig.mkDefault 0 0 0 0 0) ["# sample"] =
      some (RnaConfig.mkDefault 0 0 0 0 0, []) ∧
    processLines "rna.conf" 1 (RnaConfig.mkDefault 0 0 0 0 0)
      ["pnd UpdateTimeout twenty"] = none := by
  exact ⟨rfl, rfl⟩

/-- C2 (amended): provided every recognized integer directive in the file
has a convertible value (`lineOk`), the scan never aborts, and it emits
exactly one warning per line that is neither blank nor a comment and has
fewer than three tokens (some extracted token empty), each warning
carrying that line's 1-based number and the source path; blank and
comment lines are skipped silently, and lines with three or more tokens
produce no warning. -/
theorem claim2_warning_per_malformed_line (path : String) (conf : RnaConfig)
    (lines : List String) (h : ∀ l ∈ lines, lineOk l) :
    ∃ c, processLines path 1 conf lines =
      some (c, expectedWarnings path 1 lines) := by
  rcases Option.isSome_iff_exists.mp
      (@processLines_isSome path lines 1 conf h) with ⟨p, hp⟩
  obtain ⟨c, ws⟩ := p
  exact ⟨c, by rw [hp, processLines_warnings hp]⟩

/-- C2 (witness): the amended claim at a concrete four-line file whose
second line has only two tokens; exactly one warning is emitted, for
line 2. -/
theorem claim2_witness :
    ∃ c, processLines "rna.conf" 1 (RnaConfig.mkDefault 0 0 0 0 0)
        ["# c", "a b", "pnd UpdateTimeout 9", "x y z"] =
      some (c, expectedWarnings "rna.conf" 1
        ["# c", "a b", "pnd UpdateTimeout 9", "x y z"]) :=
  claim2_warning_per_malformed_line "rna.conf" (RnaConfig.mkDefault 0 0 0 0 0)
    ["# c", "a b", "pnd UpdateTimeout 9", "x y z"] (by decide)

/-- C3 (counterexample): "last directive wins" fails for the key pair
("protoid", "BannerGrab"): after the two-line file
[BannerGrab 1, BannerGrab 0] the flag is true, although processing the
last directive alone leaves it false — the later "0" directive did not
overwrite the field. -/
theorem claim3_counterexample :
    processLines "rna.conf" 1 (RnaConfig.mkDefault 0 0 0 0 0)
        ["protoid BannerGrab 1", "protoid BannerGrab 0"] =
      some (⟨0, 0, 0, 0, 0, true⟩, []) ∧
    processLines "rna.conf" 1 (RnaConfig.mkDefault 0 0 0 0 0)
        ["protoid BannerGrab 0"] =
      some (⟨0, 0, 0, 0, 0, false⟩, []) := by
  exact ⟨rfl, rfl⟩

/-- C3 (amended): each of the five recognized integer directives
overwrites its field unconditionally as encountered, so for those keys
the last directive wins (applying a second directive for the same key
gives the same result as applying only that second directive); the
("protoid", "BannerGrab") directive is not an unconditional overwrite: a
"0" value leaves the record unchanged, and any other value sets
enable_banner_grab to true. -/
theorem claim3_last_directive_wins :
    (∀ (conf : RnaConfig) (t k v1 v2 : String) (i1 : Int), intKey t k →
        stoi v1 = some i1 →
        (applyDirective conf t k v1).bind (fun c => applyDirective c t k v2) =
          applyDirective conf t k v2) ∧
    (∀ conf : RnaConfig,
        applyDirective conf "protoid" "BannerGrab" "0" = some conf) ∧
    (∀ (conf : RnaConfig) (v : String), v ≠ "0" →
        applyDirective conf "protoid" "BannerGrab" v =
          some { conf with enable_banner_grab := true }) := by
  refine ⟨?_, fun conf => rfl, ?_⟩
  · intro conf t k v1 v2 i1 hik hstoi
    rcases hik with ⟨rfl, rfl⟩ | ⟨rfl, rfl | rfl | rfl | rfl⟩
    · have key : applyDirective conf "pnd" "UpdateTimeout" v1 =
          some { conf with update_timeout := toU32 i1 } := by
        unfold applyDirective
        rw [if_pos ⟨rfl, rfl⟩, hstoi]; rfl
      rw [key]; rfl
    · have key : applyDirective conf "config" "MaxHostClientApps" v1 =
          some { conf with max_host_client_apps := toU32 i1 } := by
        unfold applyDirective
        rw [if_neg (by decide), if_pos ⟨rfl, rfl⟩, hstoi]; rfl
      rw [key]; rfl
    · have key : applyDirective conf "config" "MaxPayloads" v1 =
          some { conf with max_payloads := toU32 i1 } := by
        unfold applyDirective
        rw [if_neg (by decide), if_neg (by decide), if_pos ⟨rfl, rfl⟩,
          hstoi]
        rfl
      rw [key]; rfl
    · have key : applyDirective conf "config" "MaxHostServices" v1 =
          some { conf with max_host_services := toU32 i1 } := by
        unfold applyDirective
        rw [if_neg (by decide), if_neg (by decide), if_neg (by decide),
          if_pos ⟨rfl, rfl⟩, hstoi]
        rfl
      rw [key]; rfl
    · have key : applyDirective conf "config" "MaxHostServiceInfo" v1 =
          some { conf with max_host_service_info := toU32 i1 } := by
        unfold applyDirective
        rw [if_neg (by decide), if_neg (by decide), if_neg (by decide),
          if_neg (by decide), if_pos ⟨rfl, rfl⟩, hstoi]
        rfl
      rw [key]; rfl
  · intro conf v hv
    unfold applyDirective
    rw [if_neg (by decide), if_neg (by decide), if_neg (by decide),
      if_neg (by decide), if_neg (by decide), if_pos ⟨rfl, rfl, hv⟩]

/-- C3 (witness): the amended claim at concrete inputs: two
UpdateTimeout directives collapse to the last one, and a non-"0"
BannerGrab value enables the flag. -/
theorem claim3_witness :
    (applyDirective (RnaConfig.mkDefault 0 0 0 0 0) "pnd" "UpdateTimeout"
        "7").bind
      (fun c => applyDirective c "pnd" "UpdateTimeout" "9") =
      applyDirective (RnaConfig.mkDefault 0 0 0 0 0) "pnd" "UpdateTimeout"
        "9" ∧
    applyDirective (RnaConfig.mkDefault 0 0 0 0 0) "protoid" "BannerGrab"
        "yes" =
      some { RnaConfig.mkDefault 0 0 0 0 0 with enable_banner_grab := true } :=
  ⟨claim3_last_directive_wins.1 (RnaConfig.mkDefault 0 0 0 0 0) "pnd"
      "UpdateTimeout" "7" "9" 7 (Or.inl ⟨rfl, rfl⟩) rfl,
   claim3_last_directive_wins.2.2 (RnaConfig.mkDefault 0 0 0 0 0) "yes"
      (by decide)⟩

/-- C4: when the configuration path is empty or the file cannot be
opened, the load fails, the inspector keeps the default record,
construction nevertheless completes, and exactly one warning is
emitted.  The hypothesis `hempty` is the modelled fact that opening an
empty path always fails. -/
theorem claim4_missing_file_defaults (dflt : RnaConfig)
    (mc : RnaModuleConfig) (fs : String → Option (List String))
    (hempty : fs "" = none)
    (h : mc.rna_conf_path = "" ∨ fs mc.rna_conf_path = none) :
    constructInspector dflt (some mc) fs =
      some (⟨some mc, some dflt⟩, [Warning.loadFailed]) := by
  have hopen : fs mc.rna_conf_path = none := by
    rcases h with h | h
    · rw [h, hempty]
    · exact h
  simp [constructInspector, load_rna_conf, hopen]

/-- C4 (witness): a module configuration with an empty path over a
filesystem with no openable file. -/
theorem claim4_witness :
    constructInspector (RnaConfig.mkDefault 1 2 3 4 5)
        (some ⟨"", "", "", ""⟩) (fun _ => none) =
      some (⟨some ⟨"", "", "", ""⟩, some (RnaConfig.mkDefault 1 2 3 4 5)⟩,
        [Warning.loadFailed]) :=
  claim4_missing_file_defaults (RnaConfig.mkDefault 1 2 3 4 5)
    ⟨"", "", "", ""⟩ (fun _ => none) rfl (Or.inl rfl)

/-- C5: evaluating a packet whose flags carry the rebuilt-stream bit
leaves the total-packet counter unchanged; evaluating any other packet
increments it by exactly one. -/
theorem claim5_rebuilt_excluded (p : Packet) (s : SimpleStats) :
    (p.packet_flags &&& PKT_REBUILT_STREAM ≠ 0 → eval p s = s) ∧
    (p.packet_flags &&& PKT_REBUILT_STREAM = 0 →
      eval p s = ⟨s.total_packets + 1⟩) := by
  constructor
  · intro h; rw [eval, if_pos h]
  · intro h; rw [eval, if_neg (by rw [h]; exact fun hc => hc rfl)]

/-- C5 (witness): a flagged packet leaves the counter at 5; an unflagged
packet moves it to 6. -/
theorem claim5_witness :
    eval ⟨2⟩ ⟨5⟩ = ⟨5⟩ ∧ eval ⟨0⟩ ⟨5⟩ = ⟨6⟩ :=
  ⟨(claim5_rebuilt_excluded ⟨2⟩ ⟨5⟩).1 (by decide),
   (claim5_rebuilt_excluded ⟨0⟩ ⟨5⟩).2 (by decide)⟩

/-- C6: every completed construction leaves the inspector holding a
non-null configuration record. -/
theorem claim6_record_never_null (dflt : RnaConfig)
    (mc : Option RnaModuleConfig) (fs : String → Option (List String))
    (ins : RnaInspector) (ws : List Warning)
    (h : constructInspector dflt mc fs = some (ins, ws)) :
    ∃ c, ins.rna_conf = some c := by
  unfold constructInspector at h
  cases hl : load_rna_conf dflt mc fs with
  | none => rw [hl] at h; cases h
  | some r =>
    rw [hl] at h
    injection h with h
    injection h with h1 h2
    exact ⟨r.rna_conf, by rw [← h1]⟩

/-- C6 (witness): construction with no module configuration still yields
an inspector holding a (default) record. -/
theorem claim6_witness :
    ∃ c, (RnaInspector.mk none (some (RnaConfig.mkDefault 9 9 9 9 9))).rna_conf =
      some c :=
  claim6_record_never_null (RnaConfig.mkDefault 9 9 9 9 9) none
    (fun _ => none) (RnaInspector.mk none (some (RnaConfig.mkDefault 9 9 9 9 9)))
    [Warning.loadFailed] rfl

/-- C7: a ("protoid", "BannerGrab", v) directive on a default-initialized
record sets enable_banner_grab to true exactly when the literal token v
differs from "0"; any other token, numeric or not, enables it. -/
theorem claim7_banner_truthiness (ut ca pl sv si : Nat) (v : String) :
    (applyDirective (RnaConfig.mkDefault ut ca pl sv si) "protoid"
        "BannerGrab" v).map RnaConfig.enable_banner_grab =
      some (!(v == "0")) := by
  by_cases h : v = "0"
  · subst h; rfl
  · unfold applyDirective
    rw [if_neg (by decide), if_neg (by decide), if_neg (by decide),
      if_neg (by decide), if_neg (by decide), if_pos ⟨rfl, rfl, h⟩,
      show (v == "0") = false from beq_eq_false_iff_ne.mpr h]
    rfl

/-- C8: a recognized integer directive whose value token is non-empty
but not convertible by `stoi` makes the whole load abort: processing the
file reaches that line and returns no record at all, instead of warning
and continuing. -/
theorem claim8_bad_number_aborts (path : String) (ln : Nat)
    (conf : RnaConfig) (line : String) (rest : List String) (t k v : String)
    (hskip : ¬ (line = "" ∨ line.data.head? = some '#'))
    (htok : tokenize3 line = (t, k, v)) (hik : intKey t k) (hv : v ≠ "")
    (hs : stoi v = none) :
    processLines path ln conf (line :: rest) = none := by
  have ht : t ≠ "" := by
    rcases hik with ⟨rfl, _⟩ | ⟨rfl, _⟩ <;> decide
  have hk : k ≠ "" := by
    rcases hik with ⟨_, rfl⟩ | ⟨_, rfl | rfl | rfl | rfl⟩ <;> decide
  have happly : applyDirective conf t k v = none := by
    rcases hik with ⟨rfl, rfl⟩ | ⟨rfl, rfl | rfl | rfl | rfl⟩
    · unfold applyDirective
      rw [if_pos ⟨rfl, rfl⟩, hs]; rfl
    · unfold applyDirective
      rw [if_neg (by decide), if_pos ⟨rfl, rfl⟩, hs]; rfl
    · unfold applyDirective
      rw [if_neg (by decide), if_neg (by decide), if_pos ⟨rfl, rfl⟩, hs]; rfl
    · unfold applyDirective
      rw [if_neg (by decide), if_neg (by decide), if_neg (by decide),
        if_pos ⟨rfl, rfl⟩, hs]; rfl
    · unfold applyDirective
      rw [if_neg (by decide), if_neg (by decide), if_neg (by decide),
        if_neg (by decide), if_pos ⟨rfl, rfl⟩, hs]; rfl
  have hline : processLine path ln conf line = none := by
    unfold processLine
    rw [if_neg hskip, htok]
    rw [if_neg (by simp [ht, hk, hv]), happly]
    rfl
  simp [processLines, hline]

/-- C8 (witness): the one-line file "pnd UpdateTimeout abc" aborts the
scan. -/
theorem claim8_witness :
    processLines "rna.conf" 1 (RnaConfig.mkDefault 0 0 0 0 0)
      ["pnd UpdateTimeout abc"] = none :=
  claim8_bad_number_aborts "rna.conf" 1 (RnaConfig.mkDefault 0 0 0 0 0)
    "pnd UpdateTimeout abc" [] "pnd" "UpdateTimeout" "abc" (by decide) rfl
    (Or.inl ⟨rfl, rfl⟩) (by decide) rfl

/-- C9: within one load, enable_banner_grab is monotone: a scan never
takes it from true back to false; a ("protoid", "BannerGrab", "0")
directive leaves the record unchanged; and a file that enables banner
grab on one line and carries value "0" on a later line still ends with
the flag true. -/
theorem claim9_banner_monotone :
    (∀ (path : String) (ln : Nat) (conf c : RnaConfig) (lines : List String)
        (ws : List Warning), processLines path ln conf lines = some (c, ws) →
        conf.enable_banner_grab = true → c.enable_banner_grab = true) ∧
    (∀ conf : RnaConfig,
        applyDirective conf "protoid" "BannerGrab" "0" = some conf) ∧
    (∀ (ut ca pl sv si : Nat) (path : String),
        (processLines path 1 (RnaConfig.mkDefault ut ca pl sv si)
            ["protoid BannerGrab 1", "protoid BannerGrab 0"]).map
          (fun r => r.1.enable_banner_grab) = some true) :=
  ⟨fun _ _ _ _ _ _ h hbg => processLines_bg_mono h hbg,
   fun _ => rfl, fun _ _ _ _ _ _ => rfl⟩

/-- C9 (witness): a record with the flag already enabled keeps it enabled
across a scan of a "BannerGrab 0" line. -/
theorem claim9_witness :
    (⟨7, 7, 7, 7, 7, true⟩ : RnaConfig).enable_banner_grab = true :=
  claim9_banner_monotone.1 "rna.conf" 1 ⟨7, 7, 7, 7, 7, true⟩
    ⟨7, 7, 7, 7, 7, true⟩ ["protoid BannerGrab 0"] [] rfl rfl

/-- C10: each of the five recognized integer directives accepts the
value token "-1" with no warning and no abort, storing
4294967295 = (-1) mod 2^32 into the unsigned field. -/
theorem claim10_negative_wraps (conf : RnaConfig) (path : String) (ln : Nat) :
    processLine path ln conf "pnd UpdateTimeout -1" =
      some ({ conf with update_timeout := 4294967295 }, []) ∧
    processLine path ln conf "config MaxHostClientApps -1" =
      some ({ conf with max_host_client_apps := 4294967295 }, []) ∧
    processLine path ln conf "config MaxPayloads -1" =
      some ({ conf with max_payloads := 4294967295 }, []) ∧
    processLine path ln conf "config MaxHostServices -1" =
      some ({ conf with max_host_services := 4294967295 }, []) ∧
    processLine path ln conf "config MaxHostServiceInfo -1" =
      some ({ conf with max_host_service_info := 4294967295 }, []) :=
  ⟨rfl, rfl, rfl, rfl, rfl⟩

end Rna
